import Mathlib

/-!
Verification of the Predictive-Dashboard backend (`ml/routes/dashboard_api.py`,
`ml/routes/pricing_api.py`).  The Python functions are shallowly embedded as
executable Lean definitions over explicit value / dataframe types; Python
truthiness (`x or default`) is modelled by dedicated helpers.
-/

namespace PredictiveDashboard

/-- ASCII lower-casing of a string, mirroring Python `str.lower()` on the
ASCII inputs that occur in the dashboard code. -/
def pyLower (s : String) : String :=
  String.mk (s.toList.map Char.toLower)

/-- Strip leading and trailing whitespace, mirroring Python `str.strip()`. -/
def pyStrip (s : String) : String :=
  String.mk (((s.toList.dropWhile Char.isWhitespace).reverse.dropWhile Char.isWhitespace).reverse)

/-- Does `s` start with the character list `p`? (helper for substring search). -/
def charsHavePre : List Char → List Char → Bool
  | [], _ => true
  | _ :: _, [] => false
  | a :: p, b :: s => a == b && charsHavePre p s

/-- Does the character list contain `pat` as a contiguous sublist? -/
def charsHaveSub (pat : List Char) : List Char → Bool
  | [] => charsHavePre pat []
  | c :: rest => charsHavePre pat (c :: rest) || charsHaveSub pat rest

/-- Python's substring test `pat in s`. -/
def containsSub (s pat : String) : Bool :=
  charsHaveSub pat.toList s.toList

/-- A scalar cell value of a dataframe / JSON document: a string, an integer,
or a missing value (pandas `NaN`). -/
inductive Val where
  | s : String → Val
  | i : Int → Val
  | nan : Val
deriving DecidableEq, Repr

/-- A value of one entry of the `filter` mapping of a candidate plan: either a
JSON list of values (the only shape `apply_filter` acts on) or some other
scalar (skipped by the `isinstance(vals, list)` check). -/
inductive FilterVal where
  | list : List Val → FilterVal
  | scalar : Val → FilterVal
deriving DecidableEq, Repr

/-- The `filter` mapping of a plan (a JSON object, as an association list). -/
abbrev FilterSpec := List (String × FilterVal)

/-- The candidate / finalized chart plan of `dashboard_api.py`: a JSON object
with at most these keys; `none` models an absent key or JSON `null`. -/
structure Plan where
  dataset : Option String
  chart_type : Option String
  x : Option String
  y : Option String
  filter : Option FilterSpec
  calculation : Option String
  reason : Option String
deriving DecidableEq, Repr

/-- A plan with every key absent. -/
def blankPlan : Plan :=
  ⟨none, none, none, none, none, none, none⟩

/-- Python `value or default` for an optional string field: `None` and the
empty string are falsy and replaced by the default. -/
def orStr (v : Option String) (d : String) : String :=
  match v with
  | none => d
  | some s => if s = "" then d else s

/-- Python `value or None` for an optional string field. -/
def orStrOpt (v : Option String) : Option String :=
  match v with
  | none => none
  | some s => if s = "" then none else some s

/-- Python `value or None` for the `filter` field: an empty mapping is falsy. -/
def orFilter (v : Option FilterSpec) : Option FilterSpec :=
  match v with
  | none => none
  | some f => if f = [] then none else some f

/-- The `valid_ds` allow-list of `_normalize_plan`. -/
def valid_ds : List String :=
  ["kpi_totals", "kpi_expensesByCategory", "kpi_monthly", "kpi_daily",
   "products", "transactions"]

/-- The `ch_map` chart-type synonym table of `_normalize_plan`. -/
def ch_map : List (String × String) :=
  [("bar", "bar"), ("bar chart", "bar"),
   ("line", "line"), ("line chart", "line"),
   ("scatter", "scatter"), ("scatter plot", "scatter"),
   ("pie", "pie"), ("pie chart", "pie"),
   ("histogram", "histogram"),
   ("box", "box"), ("box plot", "box")]

/-- The six canonical chart types that can come out of normalization. -/
def chart_types : List String :=
  ["bar", "line", "scatter", "pie", "histogram", "box"]

/-- Dataset repair of `_normalize_plan`:
`ds = str(plan.get("dataset") or "").strip()`, then the allow-list / alias
check, every failing branch of which yields `"kpi_totals"`. -/
def norm_dataset (d : Option String) : String :=
  let ds0 := pyStrip (orStr d "")
  if ds0 ∈ valid_ds then ds0
  else if pyLower ds0 ∈ (["kpis", "kpi", "totals"] : List String) then "kpi_totals"
  else "kpi_totals"

/-- Chart-type repair of `_normalize_plan`:
`ch = str(plan.get("chart_type") or "").strip().lower()` then
`ch_map.get(ch, "bar")`. -/
def norm_chart (c : Option String) : String :=
  (ch_map.lookup (pyLower (pyStrip (orStr c "")))).getD "bar"

/-- Axis defaulting of `_normalize_plan`: the `if ds == ... / elif ...` chain
assigning `plan["x"]`/`plan["y"]`. The final catch-all branch (no `else` in
the Python chain) leaves `x`/`y` untouched. -/
def default_xy (ds ch : String) (x y : Option String) : Option String × Option String :=
  if ds = "kpi_totals" then (some (orStr x "metric"), some (orStr y "value"))
  else if ds = "kpi_expensesByCategory" then (some (orStr x "category"), some (orStr y "value"))
  else if ds = "kpi_monthly" then (some (orStr x "month"), some (orStr y "revenue"))
  else if ds = "kpi_daily" then (some (orStr x "date"), some (orStr y "revenue"))
  else if ds = "products" then
    if ch = "scatter" ∨ ch = "line" then (some (orStr x "price"), some (orStr y "expense"))
    else (some (orStr x "createdAt"), some (orStr y "price"))
  else if ds = "transactions" then
    if ch = "box" ∨ ch = "histogram" then (some (orStr x "amount"), orStrOpt y)
    else (some (orStr x "buyer"), some (orStr y "amount"))
  else (x, y)

/-- Keyword scan of `_normalize_plan`: the metric names collected from the
lower-cased `reason` text (`str(plan.get("reason", "")).lower()`). -/
def infer_metrics (reason : Option String) : List String :=
  let t := pyLower (reason.getD "")
  (if containsSub t "revenue" then ["totalRevenue"] else []) ++
  (if containsSub t "expense" then ["totalExpenses"] else []) ++
  (if containsSub t "profit" then ["totalProfit"] else [])

/-- Implicit metric-filter inference of `_normalize_plan`: fires only for
`kpi_totals` when the (falsy-normalized) filter is `None`. -/
def norm_filter (ds : String) (filt0 : Option FilterSpec) (reason : Option String) :
    Option FilterSpec :=
  if ds = "kpi_totals" ∧ filt0 = none then
    let ms := infer_metrics reason
    if ms = [] then filt0
    else some [("metric", FilterVal.list (ms.map Val.s))]
  else filt0

/-- `_normalize_plan` of `dashboard_api.py`: dataset repair, chart-type
repair, axis defaulting, filter/calculation falsy-passthrough, and implicit
metric-filter inference, assembled exactly as in the source. -/
def _normalize_plan (plan : Plan) : Plan :=
  let ds := norm_dataset plan.dataset
  let ch := norm_chart plan.chart_type
  { dataset := some ds
    chart_type := some ch
    x := (default_xy ds ch plan.x plan.y).1
    y := (default_xy ds ch plan.x plan.y).2
    filter := norm_filter ds (orFilter plan.filter) plan.reason
    calculation := orStrOpt plan.calculation
    reason := plan.reason }

/-- An in-memory table (pandas `DataFrame`): a list of column names and a
list of rows, each row holding one value per column, positionally. -/
structure DataFrame where
  cols : List String
  rows : List (List Val)
deriving DecidableEq, Repr

/-- pandas `df.empty`: some axis has length zero. -/
def DataFrame.isEmpty (df : DataFrame) : Bool :=
  df.rows.isEmpty || df.cols.isEmpty

/-- The values of one column (missing cells read as `NaN`). -/
def DataFrame.colVals (df : DataFrame) (c : String) : List Val :=
  match df.cols.findIdx? (fun s => s = c) with
  | some i => df.rows.map (fun r => r.getD i Val.nan)
  | none => []

/-- pandas `df[c] = vs`: overwrite the column if it exists, else append it. -/
def DataFrame.setCol (df : DataFrame) (c : String) (vs : List Val) : DataFrame :=
  match df.cols.findIdx? (fun s => s = c) with
  | some i => { df with rows := List.zipWith (fun r v => r.set i v) df.rows vs }
  | none => { cols := df.cols ++ [c], rows := List.zipWith (fun r v => r ++ [v]) df.rows vs }

/-- The column names of `pd.DataFrame(records)`: keys in order of first
appearance across the record dicts. -/
def recordKeys (recs : List (List (String × Val))) : List String :=
  recs.foldl (fun acc r => r.foldl (fun a kv => if kv.1 ∈ a then a else a ++ [kv.1]) acc) []

/-- `pd.DataFrame(records)` for a list of record dicts: an empty list yields
an empty frame with **no** columns; missing keys of a record read as `NaN`. -/
def dfOfRecords (recs : List (List (String × Val))) : DataFrame :=
  let cols := recordKeys recs
  { cols := cols
    rows := recs.map (fun r => cols.map (fun c => (r.lookup c).getD Val.nan)) }

/-- One iteration of the `for col, vals in filt.items()` loop of
`apply_filter`: `if col in df.columns and isinstance(vals, list):
df = df[df[col].isin(vals)]`. -/
def filter_step (d : DataFrame) (kv : String × FilterVal) : DataFrame :=
  match kv.2 with
  | FilterVal.list vals =>
    match d.cols.findIdx? (fun s => s = kv.1) with
    | some i => { d with rows := d.rows.filter (fun r => vals.contains (r.getD i Val.nan)) }
    | none => d
  | FilterVal.scalar _ => d

/-- `apply_filter` of `dashboard_api.py`:
`if not filt or df.empty: return df`, then the per-field `isin` loop. -/
def apply_filter (df : DataFrame) (plan : Plan) : DataFrame :=
  if plan.filter = none ∨ plan.filter = some [] ∨ df.isEmpty = true then df
  else (plan.filter.getD []).foldl filter_step df

/-- Whether a row survives one entry of the filter mapping (used to state the
specification of `apply_filter`): a non-list value or an unknown column keeps
the row. -/
def row_keep (cols : List String) (r : List Val) (kv : String × FilterVal) : Bool :=
  match kv.2 with
  | FilterVal.list vals =>
    match cols.findIdx? (fun s => s = kv.1) with
    | some i => vals.contains (r.getD i Val.nan)
    | none => true
  | FilterVal.scalar _ => true

/-- `lhs` of `calc.split("=", 1)` (stripped), as in `apply_calculation`. -/
def calc_lhs (c : String) : String :=
  pyStrip ((c.splitOn "=").headD "")

/-- `rhs` of `calc.split("=", 1)` (stripped), as in `apply_calculation`. -/
def calc_rhs (c : String) : String :=
  pyStrip (String.intercalate "=" (c.splitOn "=").tail)

/-- `apply_calculation` of `dashboard_api.py`.  The right-hand side is
evaluated by the external `pd.eval` over the frame's columns; that library
call is abstracted as the fallible evaluator `ev` (`none` models the raised
exception that the `try/except` swallows). -/
def apply_calculation (ev : String → DataFrame → Option (List Val))
    (df : DataFrame) (plan : Plan) : DataFrame :=
  match plan.calculation with
  | none => df
  | some c =>
    if c = "" ∨ c.contains '=' = false ∨ df.isEmpty = true then df
    else
      match ev (calc_rhs c) df with
      | none => df
      | some vs => df.setCol (calc_lhs c) vs

/-- `_clean_json` of `dashboard_api.py`: strip code fences, then extract the
match of `re.search(r"\x7b.*\x7d\s*$", raw, DOTALL)` — i.e. the span from the
first opening brace to the last closing brace that is followed only by
whitespace — falling back to the fence-stripped text. -/
def _clean_json (raw : String) : String :=
  let raw1 := pyStrip raw
  let raw2 :=
    if raw1.startsWith "```" then
      let r := pyStrip (String.mk ((raw1.drop 3).toList.dropWhile Char.isAlpha))
      if r.endsWith "```" then pyStrip (r.dropRight 3) else r
    else raw1
  let cs := raw2.toList
  let tailTrimmed := (cs.reverse.dropWhile Char.isWhitespace).reverse
  match tailTrimmed.getLast? with
  | some c =>
    if c = Char.ofNat 125 then
      match tailTrimmed.findIdx? (fun ch => ch = Char.ofNat 123) with
      | some i => String.mk (tailTrimmed.drop i)
      | none => raw2
    else raw2
  | none => raw2

/-- The hardcoded fallback plan of `llm_plan`. -/
def fallback_plan : Plan :=
  { dataset := some "kpi_totals"
    chart_type := some "bar"
    x := some "metric"
    y := some "value"
    filter := none
    calculation := none
    reason := some "Fallback plan" }

/-- Outcome of the external chat-completion call inside `llm_plan`'s `try`:
either an exception of any kind (transport failure, oracle error) or the raw
response text. -/
inductive OracleOutcome where
  | failure
  | response (raw : String)

/-- `llm_plan` of `dashboard_api.py`, with the oracle call modelled by its
`OracleOutcome` and the external `json.loads`-plus-dict-reading step modelled
by the fallible parser `parse` (`none` = any exception, caught by the same
`except` and mapped to the normalized fallback plan). -/
def llm_plan (parse : String → Option Plan) (outcome : OracleOutcome) : Plan :=
  match outcome with
  | OracleOutcome.failure => _normalize_plan fallback_plan
  | OracleOutcome.response raw =>
    match parse (_clean_json raw) with
    | none => _normalize_plan fallback_plan
    | some plan => _normalize_plan plan

/-- A KPI source document (`db.kpis` Mongo document): `none` models an absent
key or a JSON/BSON `null` (both read back as the Python default). -/
structure KpiDoc where
  totalRevenue : Option Val
  totalExpenses : Option Val
  totalProfit : Option Val
  expensesByCategory : Option (List (String × Val))
  monthlyData : Option (List (List (String × Val)))
  dailyData : Option (List (List (String × Val)))

/-- The per-cell coercions of the external pandas library used inside
`melt_kpi_document`: `astype(str)` on the month column, `pd.to_datetime` on
the date column (`none` = the exception swallowed by the `try/except`), and
`pd.to_numeric(..., errors="coerce").fillna(0)` on a numeric cell. -/
structure PdCoerce where
  astype_str : Val → Val
  to_datetime_col : List Val → Option (List Val)
  to_numeric0 : Val → Val

/-- The four dataframes produced from one KPI document. -/
structure KpiFrames where
  kpi_totals : DataFrame
  kpi_expensesByCategory : DataFrame
  kpi_monthly : DataFrame
  kpi_daily : DataFrame
deriving DecidableEq, Repr

/-- `melt_kpi_document` of `dashboard_api.py`: the fixed 3-row totals frame
(missing values default to 0), the category breakdown, the monthly and daily
frames from the embedded lists, and the type-normalization block guarded on
non-emptiness and column presence. -/
def melt_kpi_document (pc : PdCoerce) (doc : KpiDoc) : KpiFrames :=
  let totals_df := dfOfRecords
    [[("metric", Val.s "totalRevenue"), ("value", doc.totalRevenue.getD (Val.i 0))],
     [("metric", Val.s "totalExpenses"), ("value", doc.totalExpenses.getD (Val.i 0))],
     [("metric", Val.s "totalProfit"), ("value", doc.totalProfit.getD (Val.i 0))]]
  let exp_df := dfOfRecords
    ((doc.expensesByCategory.getD []).map (fun kv => [("category", Val.s kv.1), ("value", kv.2)]))
  let monthly_df := dfOfRecords (doc.monthlyData.getD [])
  let daily_df := dfOfRecords (doc.dailyData.getD [])
  let monthly_df :=
    if !monthly_df.isEmpty && monthly_df.cols.contains "month" then
      monthly_df.setCol "month" ((monthly_df.colVals "month").map pc.astype_str)
    else monthly_df
  let daily_df :=
    if !daily_df.isEmpty && daily_df.cols.contains "date" then
      let daily_df :=
        match pc.to_datetime_col (daily_df.colVals "date") with
        | some vs => daily_df.setCol "date" vs
        | none => daily_df
      let daily_df :=
        if daily_df.cols.contains "revenue" then
          daily_df.setCol "revenue" ((daily_df.colVals "revenue").map pc.to_numeric0)
        else daily_df
      if daily_df.cols.contains "expenses" then
        daily_df.setCol "expenses" ((daily_df.colVals "expenses").map pc.to_numeric0)
      else daily_df
    else daily_df
  { kpi_totals := totals_df
    kpi_expensesByCategory := exp_df
    kpi_monthly := monthly_df
    kpi_daily := daily_df }

/-- The three synthetic sales volumes built per product in `suggest_price`
(`pricing_api.py`); `sales_volume` is a pydantic `int`. -/
def synthetic_sales (sales_volume : Int) : List Int :=
  [sales_volume + 5, sales_volume, sales_volume - 5]

/-- pandas `df["sales_volume"].nunique()`: the number of distinct values. -/
def sales_nunique (sales_volume : Int) : Nat :=
  (synthetic_sales sales_volume).dedup.length

/-- Which branch of `suggest_price` computes the suggestion for a product. -/
inductive SuggestBranch where
  | degenerate
  | regression
deriving DecidableEq, Repr

/-- The branch selection `if df["sales_volume"].nunique() < 2` of
`suggest_price`. -/
def suggest_branch (sales_volume : Int) : SuggestBranch :=
  if sales_nunique sales_volume < 2 then SuggestBranch.degenerate
  else SuggestBranch.regression

/-- Identity pandas coercions, a concrete instance of `PdCoerce` for closed
evaluations. -/
def pcId : PdCoerce :=
  { astype_str := fun v => v
    to_datetime_col := fun l => some l
    to_numeric0 := fun v => v }

/-- The KPI document of the round-trip scenario: totals 100/40/60 and empty
category mapping, monthly list, daily list. -/
def docC6 : KpiDoc :=
  { totalRevenue := some (Val.i 100)
    totalExpenses := some (Val.i 40)
    totalProfit := some (Val.i 60)
    expensesByCategory := some []
    monthlyData := some []
    dailyData := some [] }

/-- A concrete 3-row totals frame used as a closed evaluation input. -/
def dfT : DataFrame :=
  { cols := ["metric", "value"]
    rows := [[Val.s "totalRevenue", Val.i 100],
             [Val.s "totalExpenses", Val.i 40],
             [Val.s "totalProfit", Val.i 60]] }

section Helpers

theorem orStr_ne_empty (v : Option String) (d : String) (hd : d ≠ "") :
    orStr v d ≠ "" := by
  cases v with
  | none => exact hd
  | some s =>
    simp only [orStr]
    split
    · exact hd
    · assumption

theorem orStr_orStr (v : Option String) (d : String) (hd : d ≠ "") :
    orStr (some (orStr v d)) d = orStr v d := by
  have h := orStr_ne_empty v d hd
  simp only [orStr]
  split
  · exact absurd (by assumption) (by simpa [orStr] using h)
  · rfl

theorem orStrOpt_orStrOpt (v : Option String) :
    orStrOpt (orStrOpt v) = orStrOpt v := by
  cases v with
  | none => rfl
  | some s => by_cases hs : s = "" <;> simp [orStrOpt, hs]

theorem orStr_of_some (t : String) (d : String) (ht : t ≠ "") :
    orStr (some t) d = t := by
  simp [orStr, ht]

theorem orFilter_orFilter (v : Option FilterSpec) :
    orFilter (orFilter v) = orFilter v := by
  cases v with
  | none => rfl
  | some f => by_cases hf : f = [] <;> simp [orFilter, hf]

theorem lookup_mem_snd {α β : Type} [BEq α] (k : α) (v : β) :
    ∀ l : List (α × β), l.lookup k = some v → v ∈ l.map Prod.snd := by
  intro l
  induction l with
  | nil => intro h; simp [List.lookup] at h
  | cons p t ih =>
    obtain ⟨a, b⟩ := p
    intro h
    simp only [List.lookup] at h
    cases hk : k == a
    · rw [hk] at h
      exact List.mem_cons_of_mem _ (ih h)
    · rw [hk] at h
      simp only [Option.some.injEq] at h
      simp [h]

theorem ch_map_lookup_mem (k v : String) (h : ch_map.lookup k = some v) :
    v ∈ chart_types := by
  have hm := lookup_mem_snd k v ch_map h
  fin_cases hm <;> decide

theorem norm_dataset_mem (d : Option String) : norm_dataset d ∈ valid_ds := by
  simp only [norm_dataset]
  split
  · assumption
  · split <;> decide

theorem norm_chart_mem (c : Option String) : norm_chart c ∈ chart_types := by
  unfold norm_chart
  cases h : ch_map.lookup (pyLower (pyStrip (orStr c "")))
  · decide
  · simpa using ch_map_lookup_mem _ _ h

theorem norm_dataset_norm (d : Option String) :
    norm_dataset (some (norm_dataset d)) = norm_dataset d := by
  have h := norm_dataset_mem d
  simp only [valid_ds, List.mem_cons, List.mem_singleton, List.not_mem_nil, or_false] at h
  rcases h with h | h | h | h | h | h <;> rw [h] <;> decide

theorem norm_chart_norm (c : Option String) :
    norm_chart (some (norm_chart c)) = norm_chart c := by
  have h := norm_chart_mem c
  simp only [chart_types, List.mem_cons, List.mem_singleton, List.not_mem_nil, or_false] at h
  rcases h with h | h | h | h | h | h <;> rw [h] <;> decide

theorem default_xy_idem (ds ch : String) (x y : Option String) (h : ds ∈ valid_ds) :
    default_xy ds ch (default_xy ds ch x y).1 (default_xy ds ch x y).2 =
      default_xy ds ch x y := by
  simp only [valid_ds, List.mem_cons, List.not_mem_nil, or_false] at h
  rcases h with rfl | rfl | rfl | rfl | rfl | rfl
  · simp [default_xy, orStr_orStr]
  · simp [default_xy, orStr_orStr]
  · simp [default_xy, orStr_orStr]
  · simp [default_xy, orStr_orStr]
  · by_cases hch : ch = "scatter" ∨ ch = "line" <;>
      simp [default_xy, hch, orStr_orStr]
  · by_cases hch : ch = "box" ∨ ch = "histogram" <;>
      simp [default_xy, hch, orStr_orStr, orStrOpt_orStrOpt]

theorem norm_filter_of_some (ds : String) (f : FilterSpec) (r : Option String)
    (hf : f ≠ []) : norm_filter ds (orFilter (some f)) r = some f := by
  have h1 : orFilter (some f) = some f := by simp [orFilter, hf]
  rw [h1]
  simp [norm_filter]

theorem norm_filter_stable (ds : String) (f0 : Option FilterSpec) (r : Option String)
    (h : orFilter f0 = f0) :
    norm_filter ds (orFilter (norm_filter ds f0 r)) r = norm_filter ds f0 r := by
  by_cases hds : ds = "kpi_totals"
  · by_cases hf : f0 = none
    · subst hf
      by_cases hm : infer_metrics r = []
      · simp [norm_filter, hds, hm, orFilter]
      · simp [norm_filter, hds, hm, orFilter]
    · have h1 : norm_filter ds f0 r = f0 := by simp [norm_filter, hf]
      rw [h1, h, h1]
  · have h1 : norm_filter ds f0 r = f0 := by simp [norm_filter, hds]
    rw [h1, h, h1]

theorem filter_step_spec (d : DataFrame) (kv : String × FilterVal) :
    filter_step d kv = { cols := d.cols, rows := d.rows.filter (fun r => row_keep d.cols r kv) } := by
  obtain ⟨c, fv⟩ := kv
  cases fv with
  | list vals =>
    simp only [filter_step, row_keep]
    cases h : d.cols.findIdx? (fun s => s = c) <;> simp [h]
  | scalar w => simp [filter_step, row_keep]

theorem foldl_filter_step (l : FilterSpec) (d : DataFrame) :
    l.foldl filter_step d =
      { cols := d.cols, rows := d.rows.filter (fun r => l.all (fun kv => row_keep d.cols r kv)) } := by
  induction l generalizing d with
  | nil => simp
  | cons kv t ih =>
    rw [List.foldl_cons, ih, filter_step_spec]
    simp only [List.filter_filter]
    congr 1
    apply List.filter_congr
    intro r _
    simp [List.all_cons, Bool.and_comm]

theorem row_keep_nil_cols (r : List Val) (kv : String × FilterVal) :
    row_keep [] r kv = true := by
  obtain ⟨c, fv⟩ := kv
  cases fv <;> simp [row_keep, List.findIdx?]

theorem all_true {α : Type} (l : List α) : (l.all fun _ => true) = true := by
  induction l <;> simp_all

end Helpers

/-- Claim C1 (counterexample): the claim says any dataset value that is not
one of the six valid names is mapped to `kpi_totals`, but the code strips
surrounding whitespace first: `" products "` is not a valid name (nor an
alias), yet normalization returns `products`, not `kpi_totals`. -/
theorem dataset_padded_not_defaulted :
    ({ blankPlan with dataset := some " products " } : Plan).dataset = some " products " ∧
    " products " ∉ valid_ds ∧
    pyLower " products " ∉ (["kpis", "kpi", "totals"] : List String) ∧
    (_normalize_plan { blankPlan with dataset := some " products " }).dataset = some "products" ∧
    "products" ≠ "kpi_totals" := by
  decide

/-- Claim C1 (amended): for every candidate plan whose dataset value, after
stripping surrounding whitespace (with `None`/absent read as `""`), is not
one of the six valid names, normalization returns `dataset = kpi_totals`. -/
theorem norm_dataset_default (p : Plan)
    (h : pyStrip (orStr p.dataset "") ∉ valid_ds) :
    (_normalize_plan p).dataset = some "kpi_totals" := by
  show some (norm_dataset p.dataset) = some "kpi_totals"
  simp only [norm_dataset]
  rw [if_neg h]
  split <;> rfl

/-- Claim C1 (witness): the alias `"kpis"` is not a valid name, so the
amended theorem applies and yields `kpi_totals`. -/
theorem norm_dataset_default_w :
    (_normalize_plan { blankPlan with dataset := some "kpis" }).dataset = some "kpi_totals" :=
  norm_dataset_default { blankPlan with dataset := some "kpis" } (by decide)

/-- Claim C2 (counterexample): the claim says a chart_type whose lower-cased
value is not matched by the synonym table yields `bar`, but the code also
strips whitespace: `" PIE "` lower-cases to `" pie "`, which the table does
not match, yet normalization returns `pie`, not `bar`. -/
theorem chart_padded_not_defaulted :
    pyLower " PIE " = " pie " ∧
    ch_map.lookup " pie " = none ∧
    (_normalize_plan { blankPlan with chart_type := some " PIE " }).chart_type = some "pie" ∧
    "pie" ≠ "bar" := by
  decide

/-- Claim C2 (amended): normalization strips surrounding whitespace from and
lower-cases the chart_type value and maps it through the fixed synonym table
`ch_map`; any value not matched after that (including absent or null) yields
`bar`, so the normalized chart_type is always one of the six canonical chart
types. -/
theorem norm_chart_canonical (p : Plan) :
    (_normalize_plan p).chart_type = some (norm_chart p.chart_type) ∧
    norm_chart p.chart_type ∈ chart_types ∧
    (ch_map.lookup (pyLower (pyStrip (orStr p.chart_type ""))) = none →
      (_normalize_plan p).chart_type = some "bar") ∧
    (∀ v, ch_map.lookup (pyLower (pyStrip (orStr p.chart_type ""))) = some v →
      (_normalize_plan p).chart_type = some v) := by
  refine ⟨rfl, norm_chart_mem _, ?_, ?_⟩
  · intro h
    show some (norm_chart p.chart_type) = some "bar"
    simp [norm_chart, h]
  · intro v h
    show some (norm_chart p.chart_type) = some v
    simp [norm_chart, h]

/-- Claim C2 (witness): `"Bar Chart"` trims/lower-cases to `"bar chart"`,
which the synonym table maps to `bar`. -/
theorem norm_chart_canonical_w :
    (_normalize_plan { blankPlan with chart_type := some "Bar Chart" }).chart_type = some "bar" :=
  (norm_chart_canonical { blankPlan with chart_type := some "Bar Chart" }).2.2.2 "bar" (by decide)

/-- Claim C3: for a plan whose dataset normalizes to `kpi_totals` and that
has no explicit filter, if the lower-cased rationale contains "revenue" and
"expense" but not "profit" then the inferred filter is exactly
`{metric: [totalRevenue, totalExpenses]}`; if it contains none of the three
keywords, the plan is left unfiltered. -/
theorem filter_inference_spec (p : Plan)
    (hds : norm_dataset p.dataset = "kpi_totals")
    (hf : p.filter = none) :
    (containsSub (pyLower (p.reason.getD "")) "revenue" = true →
     containsSub (pyLower (p.reason.getD "")) "expense" = true →
     containsSub (pyLower (p.reason.getD "")) "profit" = false →
     (_normalize_plan p).filter =
       some [("metric", FilterVal.list [Val.s "totalRevenue", Val.s "totalExpenses"])]) ∧
    (containsSub (pyLower (p.reason.getD "")) "revenue" = false →
     containsSub (pyLower (p.reason.getD "")) "expense" = false →
     containsSub (pyLower (p.reason.getD "")) "profit" = false →
     (_normalize_plan p).filter = none) := by
  constructor
  · intro h1 h2 h3
    show norm_filter (norm_dataset p.dataset) (orFilter p.filter) p.reason = _
    rw [hds, hf]
    simp [norm_filter, infer_metrics, orFilter, h1, h2, h3]
  · intro h1 h2 h3
    show norm_filter (norm_dataset p.dataset) (orFilter p.filter) p.reason = _
    rw [hds, hf]
    simp [norm_filter, infer_metrics, orFilter, h1, h2, h3]

/-- Claim C3 (witness): rationale "comparing revenue and expenses" produces
exactly the filter `{metric: [totalRevenue, totalExpenses]}`. -/
theorem filter_inference_spec_w :
    (_normalize_plan { blankPlan with reason := some "comparing revenue and expenses" }).filter =
      some [("metric", FilterVal.list [Val.s "totalRevenue", Val.s "totalExpenses"])] :=
  (filter_inference_spec { blankPlan with reason := some "comparing revenue and expenses" }
    (by decide) rfl).1 (by decide) (by decide) (by decide)

/-- Claim C4: normalization is idempotent — normalizing an already-normalized
plan returns it unchanged — and a candidate plan carrying an explicit
(nonempty) filter has that filter passed through unchanged, the inference
step never firing. -/
theorem normalize_idempotent (p : Plan) :
    _normalize_plan (_normalize_plan p) = _normalize_plan p ∧
    (∀ f, p.filter = some f → f ≠ [] → (_normalize_plan p).filter = some f) := by
  constructor
  · simp only [_normalize_plan]
    rw [norm_dataset_norm, norm_chart_norm,
        default_xy_idem _ _ _ _ (norm_dataset_mem p.dataset),
        norm_filter_stable _ _ _ (orFilter_orFilter p.filter), orStrOpt_orStrOpt]
  · intro f hf hne
    show norm_filter (norm_dataset p.dataset) (orFilter p.filter) p.reason = some f
    rw [hf]
    exact norm_filter_of_some _ _ _ hne

/-- Claim C4 (witness): an explicit one-entry filter is passed through
unchanged by normalization. -/
theorem normalize_idempotent_w :
    (_normalize_plan { blankPlan with
        filter := some [("metric", FilterVal.list [Val.s "totalRevenue"])] }).filter =
      some [("metric", FilterVal.list [Val.s "totalRevenue"])] :=
  (normalize_idempotent { blankPlan with
      filter := some [("metric", FilterVal.list [Val.s "totalRevenue"])] }).2
    [("metric", FilterVal.list [Val.s "totalRevenue"])] rfl (by decide)

/-- Claim C5: whenever the oracle call fails or its cleaned response does not
parse, `llm_plan` returns the normalized hardcoded fallback plan
`{dataset: kpi_totals, chart_type: bar, x: metric, y: value, filter: null,
calculation: null}` — plan construction never fails. -/
theorem llm_plan_fallback (parse : String → Option Plan) (outcome : OracleOutcome)
    (h : outcome = OracleOutcome.failure ∨
      ∃ raw, outcome = OracleOutcome.response raw ∧ parse (_clean_json raw) = none) :
    llm_plan parse outcome =
      { dataset := some "kpi_totals", chart_type := some "bar", x := some "metric",
        y := some "value", filter := none, calculation := none,
        reason := some "Fallback plan" } := by
  have hfb : _normalize_plan fallback_plan =
      { dataset := some "kpi_totals", chart_type := some "bar", x := some "metric",
        y := some "value", filter := none, calculation := none,
        reason := some "Fallback plan" } := by decide
  rcases h with h | ⟨raw, hr, hp⟩
  · subst h
    simpa [llm_plan] using hfb
  · subst hr
    simp [llm_plan, hp, hfb]

/-- Claim C5 (witness): a failing oracle call yields the normalized fallback
plan. -/
theorem llm_plan_fallback_w :
    llm_plan (fun _ => none) OracleOutcome.failure =
      { dataset := some "kpi_totals", chart_type := some "bar", x := some "metric",
        y := some "value", filter := none, calculation := none,
        reason := some "Fallback plan" } :=
  llm_plan_fallback (fun _ => none) OracleOutcome.failure (Or.inl rfl)

/-- Claim C6 (counterexample): melting the KPI document with totals 100/40/60
and empty category/monthly/daily sub-structures yields the three non-totals
frames with NO columns at all (`pd.DataFrame([])` has an empty column index),
contradicting the claimed "correct column headers". -/
theorem melt_empty_sublists_no_headers :
    (melt_kpi_document pcId docC6).kpi_expensesByCategory.cols = [] ∧
    (melt_kpi_document pcId docC6).kpi_monthly.cols = [] ∧
    (melt_kpi_document pcId docC6).kpi_daily.cols = [] ∧
    ¬ (melt_kpi_document pcId docC6).kpi_expensesByCategory.cols = ["category", "value"] := by
  decide

/-- Claim C6 (amended): melting a KPI document with totalRevenue=100,
totalExpenses=40, totalProfit=60 and empty category mapping, monthly list
and daily list yields a `kpi_totals` table of exactly the 3 rows
(totalRevenue 100, totalExpenses 40, totalProfit 60; a missing metric
defaults to 0), and the other three tables empty with zero rows and zero
columns (column headers on empty KPI tables appear only in the no-document
fallback of `fetch_kpi_frames`, not in `melt_kpi_document`). -/
theorem melt_round_trip (pc : PdCoerce) :
    (melt_kpi_document pc docC6).kpi_totals =
      { cols := ["metric", "value"],
        rows := [[Val.s "totalRevenue", Val.i 100],
                 [Val.s "totalExpenses", Val.i 40],
                 [Val.s "totalProfit", Val.i 60]] } ∧
    (melt_kpi_document pc docC6).kpi_expensesByCategory = { cols := [], rows := [] } ∧
    (melt_kpi_document pc docC6).kpi_monthly = { cols := [], rows := [] } ∧
    (melt_kpi_document pc docC6).kpi_daily = { cols := [], rows := [] } ∧
    (melt_kpi_document pc { docC6 with totalProfit := none }).kpi_totals =
      { cols := ["metric", "value"],
        rows := [[Val.s "totalRevenue", Val.i 100],
                 [Val.s "totalExpenses", Val.i 40],
                 [Val.s "totalProfit", Val.i 0]] } :=
  ⟨rfl, rfl, rfl, rfl, rfl⟩

/-- Claim C7: after normalization `x` is always a non-null, nonempty string:
when the candidate `x` is absent (or the falsy empty string) the per-dataset
default is applied — metric / category / month / date for the four KPI
datasets, chart-type-dependent price-or-createdAt for products and
amount-or-buyer for transactions — and otherwise the supplied `x` is kept. -/
theorem norm_x_nonnull (p : Plan) :
    (∃ s, (_normalize_plan p).x = some s ∧ s ≠ "") ∧
    ((p.x = none ∨ p.x = some "") →
      (norm_dataset p.dataset = "kpi_totals" → (_normalize_plan p).x = some "metric") ∧
      (norm_dataset p.dataset = "kpi_expensesByCategory" → (_normalize_plan p).x = some "category") ∧
      (norm_dataset p.dataset = "kpi_monthly" → (_normalize_plan p).x = some "month") ∧
      (norm_dataset p.dataset = "kpi_daily" → (_normalize_plan p).x = some "date") ∧
      (norm_dataset p.dataset = "products" →
        ((norm_chart p.chart_type = "scatter" ∨ norm_chart p.chart_type = "line") →
          (_normalize_plan p).x = some "price") ∧
        (¬(norm_chart p.chart_type = "scatter" ∨ norm_chart p.chart_type = "line") →
          (_normalize_plan p).x = some "createdAt")) ∧
      (norm_dataset p.dataset = "transactions" →
        ((norm_chart p.chart_type = "box" ∨ norm_chart p.chart_type = "histogram") →
          (_normalize_plan p).x = some "amount") ∧
        (¬(norm_chart p.chart_type = "box" ∨ norm_chart p.chart_type = "histogram") →
          (_normalize_plan p).x = some "buyer"))) ∧
    (∀ t, p.x = some t → t ≠ "" → (_normalize_plan p).x = some t) := by
  have hxfst : (_normalize_plan p).x =
      (default_xy (norm_dataset p.dataset) (norm_chart p.chart_type) p.x p.y).1 := rfl
  refine ⟨?_, ?_, ?_⟩
  · have h := norm_dataset_mem p.dataset
    simp only [valid_ds, List.mem_cons, List.not_mem_nil, or_false] at h
    rcases h with h | h | h | h | h | h <;> rw [hxfst, h]
    · exact ⟨orStr p.x "metric", by simp [default_xy], orStr_ne_empty _ _ (by decide)⟩
    · exact ⟨orStr p.x "category", by simp [default_xy], orStr_ne_empty _ _ (by decide)⟩
    · exact ⟨orStr p.x "month", by simp [default_xy], orStr_ne_empty _ _ (by decide)⟩
    · exact ⟨orStr p.x "date", by simp [default_xy], orStr_ne_empty _ _ (by decide)⟩
    · by_cases hch : norm_chart p.chart_type = "scatter" ∨ norm_chart p.chart_type = "line"
      · exact ⟨orStr p.x "price", by simp [default_xy, hch], orStr_ne_empty _ _ (by decide)⟩
      · exact ⟨orStr p.x "createdAt", by simp [default_xy, hch], orStr_ne_empty _ _ (by decide)⟩
    · by_cases hch : norm_chart p.chart_type = "box" ∨ norm_chart p.chart_type = "histogram"
      · exact ⟨orStr p.x "amount", by simp [default_xy, hch], orStr_ne_empty _ _ (by decide)⟩
      · exact ⟨orStr p.x "buyer", by simp [default_xy, hch], orStr_ne_empty _ _ (by decide)⟩
  · intro hx
    have hxd : ∀ d : String, orStr p.x d = d := by
      intro d
      rcases hx with hx | hx <;> rw [hx] <;> simp [orStr]
    refine ⟨?_, ?_, ?_, ?_, ?_, ?_⟩ <;> intro hds <;> rw [hxfst, hds]
    · simp [default_xy, hxd]
    · simp [default_xy, hxd]
    · simp [default_xy, hxd]
    · simp [default_xy, hxd]
    · exact ⟨fun hch => by simp [default_xy, hch, hxd],
             fun hch => by simp [default_xy, hch, hxd]⟩
    · exact ⟨fun hch => by simp [default_xy, hch, hxd],
             fun hch => by simp [default_xy, hch, hxd]⟩
  · intro t hxt ht
    have hor : ∀ d : String, orStr p.x d = t := by
      intro d
      rw [hxt]
      simp [orStr, ht]
    have h := norm_dataset_mem p.dataset
    simp only [valid_ds, List.mem_cons, List.not_mem_nil, or_false] at h
    rcases h with h | h | h | h | h | h <;> rw [hxfst, h]
    · simp [default_xy, hor]
    · simp [default_xy, hor]
    · simp [default_xy, hor]
    · simp [default_xy, hor]
    · by_cases hch : norm_chart p.chart_type = "scatter" ∨ norm_chart p.chart_type = "line" <;>
        simp [default_xy, hch, hor]
    · by_cases hch : norm_chart p.chart_type = "box" ∨ norm_chart p.chart_type = "histogram" <;>
        simp [default_xy, hch, hor]

/-- Claim C7 (witness): the all-absent candidate plan lands on dataset
`kpi_totals`, whose default x is `metric`. -/
theorem norm_x_nonnull_w :
    (_normalize_plan blankPlan).x = some "metric" :=
  ((norm_x_nonnull blankPlan).2.1 (Or.inl rfl)).1 (by decide)

/-- Claim C8: `apply_filter` keeps exactly the rows that, for every filter
entry whose key is an existing column and whose value is a list, have that
column's value in the list (OR within a field via membership, AND across
fields via `List.all`); unknown fields and non-list values are ignored, and
an absent/empty filter or an empty table yields the table unchanged — all
summarized by this single unconditional characterization. -/
theorem apply_filter_characterization (df : DataFrame) (plan : Plan) :
    apply_filter df plan =
      { cols := df.cols,
        rows := df.rows.filter (fun r =>
          (plan.filter.getD []).all (fun kv => row_keep df.cols r kv)) } := by
  obtain ⟨cols, rows⟩ := df
  unfold apply_filter
  split
  · rename_i h
    rcases h with h | h | h
    · simp [h]
    · simp [h]
    · have h2 : rows = [] ∨ cols = [] := by
        simpa [DataFrame.isEmpty, Bool.or_eq_true, List.isEmpty_iff] using h
      rcases h2 with h2 | h2
      · subst h2; simp
      · subst h2
        simp [row_keep_nil_cols, all_true]
  · exact foldl_filter_step _ _

/-- Claim C9: `apply_calculation` leaves the table unchanged when the
calculation string lacks `=`, when the right-hand side fails to evaluate
(the external `pd.eval` raising, e.g. on a nonexistent column, modelled by
the evaluator returning `none`), when the table is empty, and when no
calculation is present — no new column and no escaping exception. -/
theorem apply_calculation_safety (ev : String → DataFrame → Option (List Val))
    (df : DataFrame) (plan : Plan) :
    (∀ c, plan.calculation = some c → c.contains '=' = false →
      apply_calculation ev df plan = df) ∧
    (df.isEmpty = true → apply_calculation ev df plan = df) ∧
    (∀ c, plan.calculation = some c → ev (calc_rhs c) df = none →
      apply_calculation ev df plan = df) ∧
    (plan.calculation = none → apply_calculation ev df plan = df) := by
  refine ⟨?_, ?_, ?_, ?_⟩
  · intro c hc h
    simp [apply_calculation, hc, h]
  · intro h
    cases hc : plan.calculation with
    | none => simp [apply_calculation, hc]
    | some c => simp [apply_calculation, hc, h]
  · intro c hc hev
    by_cases hguard : c = "" ∨ c.contains '=' = false ∨ df.isEmpty = true
    · simp [apply_calculation, hc, hguard]
    · simp [apply_calculation, hc, hguard, hev]
  · intro h
    simp [apply_calculation, h]

/-- Claim C9 (witness): a calculation whose right-hand side fails to
evaluate leaves the concrete totals table unchanged. -/
theorem apply_calculation_safety_w :
    apply_calculation (fun _ _ => none) dfT
      { blankPlan with calculation := some "vv = value * missing" } = dfT :=
  (apply_calculation_safety (fun _ _ => none) dfT
      { blankPlan with calculation := some "vv = value * missing" }).2.2.1
    "vv = value * missing" rfl rfl

/-- Claim C10: the three synthetic sales volumes of `suggest_price` are
pairwise distinct for every integer sales volume, so the
`nunique() < 2` degenerate branch is unreachable and every suggestion is
computed by the linear-regression path. -/
theorem pricing_regression_branch (sales_volume : Int) :
    (synthetic_sales sales_volume).Nodup ∧
    sales_nunique sales_volume = 3 ∧
    suggest_branch sales_volume = SuggestBranch.regression := by
  have hnd : (synthetic_sales sales_volume).Nodup := by
    simp [synthetic_sales, List.nodup_cons]
    omega
  have h3 : sales_nunique sales_volume = 3 := by
    show (synthetic_sales sales_volume).dedup.length = 3
    rw [List.dedup_eq_self.mpr hnd]
    rfl
  refine ⟨hnd, h3, ?_⟩
  simp [suggest_branch, h3]

end PredictiveDashboard
